import Mathlib

/-!
# SandalJS — formal model of the component lifecycle layer

This file is a shallow embedding of the behavioural core of SandalJS, a
vanilla-JS re-implementation of Bootstrap 3's component plugins (Modal,
Dropdown, Tooltip/Popover, Tab, Collapse, Alert, Carousel, Scrollspy, Affix).

Modelling conventions, shared by every component below:

* Each component's observable state (its state flags, the classes and
  attributes of the element(s) it owns, relevant inline styles, and the
  presence of auxiliary elements such as the modal backdrop or the tooltip
  tip) is a Lean structure.  DOM documents holding several peer elements
  (dropdowns, collapse panels, tab items) are modelled as a length plus a
  function from index to per-element state, mirroring document order.
* Methods become pure functions `State → State × List <event>`; the second
  component records the lifecycle events dispatched, in dispatch order.
  Event names are the literal `"<verb>.bs.<component>"` strings of the
  source.  For multi-element documents an event is a pair
  `(index, eventName)` naming the element it was dispatched on.
* Whether a user event handler calls `preventDefault()` on a cancelable
  pre-event is a parameter of an environment structure (`preventDefault`),
  as are quantities the code reads from the browser (scroll positions,
  measured sizes, computed overflow flags).
* `await`-points (CSS transition waits, Web-Animation promises) always run
  to completion in the source thanks to the timeout fallbacks; the model
  therefore executes a method body straight through.  Asynchronous
  interleavings between distinct instances are serialised.
-/

/-! ## Instance registry (`src/utils/index.js`)

`setInstance`/`getInstance` store at most one instance per
`(element, key)` pair in a `WeakMap`-of-`Map`.  Elements are modelled by
`Nat` identifiers, data keys (e.g. `"bs.modal"`) by `String`, and the two
storage maps by an association list in which the most recent `set` shadows
earlier entries, exactly as `Map.set` overwrites. -/

structure Registry (α : Type) where
  table : List ((Nat × String) × α)

/-- Model of `getInstance(element, key)`: `instanceStorage.get(element).get(key) || null`. -/
def regGetInstance {α : Type} (r : Registry α) (el : Nat) (key : String) : Option α :=
  (r.table.find? (fun p => p.1 == (el, key))).map Prod.snd

/-- Model of `setInstance(element, key, instance)`: overwriting insert. -/
def regSetInstance {α : Type} (r : Registry α) (el : Nat) (key : String) (v : α) :
    Registry α :=
  { table := ((el, key), v) :: r.table }

/-- Model of `getOrCreateInstance(element, key, Constructor, options)` from
`src/utils/index.js`: return the registered instance when present,
otherwise construct one (the constructor may itself touch the registry,
hence its type) and register it. -/
def regGetOrCreateInstance {α : Type} (r : Registry α) (el : Nat) (key : String)
    (ctor : Registry α → α × Registry α) : α × Registry α :=
  match regGetInstance r el key with
  | some inst => (inst, r)
  | none =>
      let c := ctor r
      (c.1, regSetInstance c.2 el key c.1)

/-- The per-component static helper, e.g.
`Modal.getOrCreateInstance = getInstance(element) || new Modal(element, options)`
(`src/unnamed/part_004`).  The constructor registers itself via
`setInstance`, which is folded into `ctor` here. -/
def staticGetOrCreateInstance {α : Type} (r : Registry α) (el : Nat) (key : String)
    (ctor : Registry α → α × Registry α) : α × Registry α :=
  match regGetInstance r el key with
  | some inst => (inst, r)
  | none => ctor r

/-- The legacy jQuery plugin adapter `$.fn.modal` (`src/src/sandal.js`):
`let data = $this.data('bs.modal'); if (!data) $this.data('bs.modal', new Modal(...))`.
When an instance exists it is reused (subsequent string dispatch calls a
method on it, creating nothing); otherwise one is constructed and stored. -/
def pluginModalCall {α : Type} (r : Registry α) (el : Nat)
    (ctor : Registry α → α × Registry α) : Registry α :=
  match regGetInstance r el "bs.modal" with
  | some _ => r
  | none =>
      let c := ctor r
      regSetInstance c.2 el "bs.modal" c.1

/-! ## Modal (`src/unnamed/part_004`, class `Modal`) -/

/-- Quantities `Modal` reads from the browser, plus the handler behaviour. -/
structure ModalEnv where
  preventDefault : String → Bool
  measuredBodyOverflowing : Bool
  measuredScrollbarWidth : Nat
  bodyComputedPadding : Nat
  modalOverflowing : Bool

/-- Observable state of one modal: its flags, the classes/attributes/inline
styles of the modal element, the `modal-open` class and scroll padding of
`document.body`, and the backdrop element. -/
structure ModalState where
  isShown : Bool
  isTransitioning : Bool
  classFade : Bool
  classIn : Bool
  ariaModal : Option String
  ariaHidden : Option String
  roleAttr : Option String
  styleDisplay : Option String
  stylePaddingLeft : Option Nat
  stylePaddingRight : Option Nat
  isBodyOverflowing : Bool
  scrollbarWidth : Nat
  bodyClassOpen : Bool
  bodyPaddingRight : Option Nat
  backdropPresent : Bool
  backdropClassFade : Bool
  backdropClassIn : Bool
  optBackdrop : Bool
  deriving Repr, DecidableEq

/-- Model of `Modal._checkScrollbar`: samples body overflow and scrollbar width. -/
def modalCheckScrollbar (env : ModalEnv) (s : ModalState) : ModalState :=
  { s with isBodyOverflowing := env.measuredBodyOverflowing,
           scrollbarWidth := env.measuredScrollbarWidth }

/-- Model of `Modal._setScrollbar`: compensating right padding on `document.body`
(fixed navbars get the same treatment; one body field stands for them). -/
def modalSetScrollbar (env : ModalEnv) (s : ModalState) : ModalState :=
  if s.isBodyOverflowing then
    { s with bodyPaddingRight := some (env.bodyComputedPadding + s.scrollbarWidth) }
  else s

/-- Model of `Modal._adjustDialog`: side padding on the modal element depending on
which of body/modal overflows. -/
def modalAdjustDialog (env : ModalEnv) (s : ModalState) : ModalState :=
  let s1 :=
    if !s.isBodyOverflowing && env.modalOverflowing then
      { s with stylePaddingLeft := some s.scrollbarWidth }
    else s
  if s1.isBodyOverflowing && !env.modalOverflowing then
    { s1 with stylePaddingRight := some s1.scrollbarWidth }
  else s1

/-- Model of `Modal._showBackdrop`: when the `backdrop` option is enabled, append a
`.modal-backdrop` (with `fade` iff the modal has it), reflow, add `in`. -/
def modalShowBackdrop (s : ModalState) : ModalState :=
  if s.optBackdrop then
    { s with backdropPresent := true, backdropClassFade := s.classFade,
             backdropClassIn := true }
  else s

/-- Model of `Modal._showModal`: reveal the element, set ARIA, adjust, add `in`. -/
def modalShowModal (env : ModalEnv) (s : ModalState) : ModalState :=
  let s1 := { s with styleDisplay := some "block", ariaHidden := none,
                     ariaModal := some "true", roleAttr := some "dialog" }
  let s2 := modalAdjustDialog env s1
  { s2 with classIn := true }

/-- Model of `Modal._hideModal`: hide the element, restore ARIA, reset the body
scroll padding and `modal-open` class, remove the backdrop. -/
def modalHideModal (s : ModalState) : ModalState :=
  let s1 := { s with styleDisplay := some "none", ariaHidden := some "true",
                     ariaModal := none, roleAttr := none }
  let s2 := { s1 with bodyPaddingRight := none, bodyClassOpen := false }
  { s2 with backdropPresent := false, backdropClassFade := false,
            backdropClassIn := false }

/-- Model of `Modal.show`: no-op when shown or transitioning; cancelable
`show.bs.modal`; scrollbar compensation, `modal-open`, backdrop, reveal;
`shown.bs.modal`.  (Focus trapping and listener installation have no
modelled observables.) -/
def modalShow (env : ModalEnv) (s : ModalState) : ModalState × List String :=
  if s.isShown || s.isTransitioning then (s, [])
  else if env.preventDefault "show.bs.modal" then (s, ["show.bs.modal"])
  else
    let s1 := { s with isShown := true, isTransitioning := true }
    let s2 := modalSetScrollbar env (modalCheckScrollbar env s1)
    let s3 := { s2 with bodyClassOpen := true }
    let s4 := modalShowModal env (modalShowBackdrop s3)
    let s5 := { s4 with isTransitioning := false }
    (s5, ["show.bs.modal", "shown.bs.modal"])

/-- Model of `Modal.hide`: no-op when hidden or transitioning; cancelable
`hide.bs.modal`; remove `in`, await transition, `_hideModal`;
`hidden.bs.modal`. -/
def modalHide (env : ModalEnv) (s : ModalState) : ModalState × List String :=
  if !s.isShown || s.isTransitioning then (s, [])
  else if env.preventDefault "hide.bs.modal" then (s, ["hide.bs.modal"])
  else
    let s1 := { s with isShown := false, isTransitioning := true }
    let s2 := { s1 with classIn := false }
    let s3 := modalHideModal s2
    let s4 := { s3 with isTransitioning := false }
    (s4, ["hide.bs.modal", "hidden.bs.modal"])

/-! ## Dropdown (`src/src/components/dropdown.js`)

A document of dropdowns.  Each entry models one `.dropdown` container: the
`open` class on the container, `aria-expanded` on its toggle, whether the
toggle is disabled, whether the container holds a `[data-toggle="dropdown"]`
toggle at all, and whether a `Dropdown` instance is registered on that
toggle (both matter to `closeAll`). -/

structure DdItem where
  isOpen : Bool
  ariaExpanded : Option String
  disabled : Bool
  hasToggle : Bool
  hasInstance : Bool
  deriving Repr, DecidableEq

structure DdDoc where
  len : Nat
  items : Nat → DdItem

/-- Point update of one dropdown container. -/
def DdDoc.upd (doc : DdDoc) (j : Nat) (item : DdItem) : DdDoc :=
  { doc with items := fun k => if k = j then item else doc.items k }

structure DdEnv where
  preventDefault : Nat → String → Bool

/-- Model of `Dropdown.show`: no-op when disabled or already open (`_isShown` reads
the `open` class on the parent); cancelable `show.bs.dropdown`; adds
`open`, sets `aria-expanded="true"`, installs the document listeners
(no modelled observable), fires `shown.bs.dropdown`. -/
def ddShow (env : DdEnv) (i : Nat) (doc : DdDoc) : DdDoc × List (Nat × String) :=
  let item := doc.items i
  if item.disabled || item.isOpen then (doc, [])
  else if env.preventDefault i "show.bs.dropdown" then (doc, [(i, "show.bs.dropdown")])
  else
    (doc.upd i { item with isOpen := true, ariaExpanded := some "true" },
     [(i, "show.bs.dropdown"), (i, "shown.bs.dropdown")])

/-- Model of `Dropdown.hide`: no-op when not open; cancelable `hide.bs.dropdown`;
removes `open`, sets `aria-expanded="false"`, fires `hidden.bs.dropdown`. -/
def ddHide (env : DdEnv) (i : Nat) (doc : DdDoc) : DdDoc × List (Nat × String) :=
  let item := doc.items i
  if !item.isOpen then (doc, [])
  else if env.preventDefault i "hide.bs.dropdown" then (doc, [(i, "hide.bs.dropdown")])
  else
    (doc.upd i { item with isOpen := false, ariaExpanded := some "false" },
     [(i, "hide.bs.dropdown"), (i, "hidden.bs.dropdown")])

/-- The `$$('.open')` snapshot taken at the top of `Dropdown.closeAll`:
the containers carrying `open`, in document order. -/
def ddOpenIndices (doc : DdDoc) : List Nat :=
  (List.range doc.len).filter (fun j => (doc.items j).isOpen)

/-- One iteration of the `closeAll` loop: if the container holds a toggle
with a registered instance, `instance.hide()`; otherwise strip the `open`
class directly. -/
def ddCloseAllStep (env : DdEnv) (st : DdDoc × List (Nat × String)) (j : Nat) :
    DdDoc × List (Nat × String) :=
  let item := st.1.items j
  if item.hasToggle then
    if item.hasInstance then
      let r := ddHide env j st.1
      (r.1, st.2 ++ r.2)
    else (st.1.upd j { item with isOpen := false }, st.2)
  else (st.1.upd j { item with isOpen := false }, st.2)

/-- Model of `Dropdown.closeAll` (static): close every dropdown that was open when
the call started. -/
def ddCloseAll (env : DdEnv) (doc : DdDoc) : DdDoc × List (Nat × String) :=
  (ddOpenIndices doc).foldl (ddCloseAllStep env) (doc, [])

/-- Model of `Dropdown.toggle`: bail when disabled; remember whether this dropdown
was open, `closeAll()`, then `show()` only if it was not open before. -/
def ddToggle (env : DdEnv) (i : Nat) (doc : DdDoc) : DdDoc × List (Nat × String) :=
  let item := doc.items i
  if item.disabled then (doc, [])
  else
    let wasOpen := item.isOpen
    let r1 := ddCloseAll env doc
    if wasOpen then r1
    else
      let r2 := ddShow env i r1.1
      (r2.1, r1.2 ++ r2.2)

/-! ## Tooltip (`src/unnamed/part_004`, class `Tooltip`) and Popover
(`src/unnamed/part_000`, class `Popover extends Tooltip`)

The tip element is built lazily by the `tip` getter from the template and
detached from the document until `show` appends it; `tipInDom` tracks its
presence in the document, `tipBuilt` the lazy construction.  Function
valued `title`/`content`/`placement` options are not modelled (the string
case of `_getTitle`/`_getContent`). -/

structure TooltipState where
  isEnabled : Bool
  optTitle : String
  optAnimation : Bool
  tipBuilt : Bool
  tipClassFade : Bool
  tipClassIn : Bool
  tipPlacementClass : Option String
  tipInDom : Bool
  tipContent : Option String
  tipStyleOpacity : Option String
  tipStyleDisplay : Option String
  tipId : Option Nat
  ariaDescribedBy : Option Nat
  hoverState : String
  activeTriggerClick : Bool
  autoUpdateActive : Bool
  deriving Repr, DecidableEq

structure TooltipEnv where
  preventDefault : String → Bool
  uid : Nat
  computedPlacement : String

/-- Model of `Tooltip.show`.  Note the order fixed by the source: the enabled guard,
then the cancelable `show` event, then the lazy `tip` getter and the
`_getTitle()` emptiness check — an empty title aborts only after
`show.bs.tooltip` has been dispatched.  There is no already-shown guard. -/
def tooltipShow (env : TooltipEnv) (s : TooltipState) : TooltipState × List String :=
  if !s.isEnabled then (s, [])
  else if env.preventDefault "show.bs.tooltip" then (s, ["show.bs.tooltip"])
  else
    let s1 := { s with tipBuilt := true }
    if s1.optTitle = "" then (s1, ["show.bs.tooltip"])
    else
      let s2 := { s1 with tipContent := some s1.optTitle }
      let s3 := { s2 with tipClassIn := false, tipPlacementClass := none }
      let s4 := { s3 with tipId := some env.uid, ariaDescribedBy := some env.uid }
      let s5 := if s4.optAnimation then { s4 with tipClassFade := true } else s4
      let s6 := { s5 with tipInDom := true }
      let s7 := { s6 with tipPlacementClass := some env.computedPlacement }
      let s8 := { s7 with tipClassIn := true,
                          tipStyleOpacity := some "1", tipStyleDisplay := some "block" }
      let s9 := { s8 with autoUpdateActive := true, hoverState := "" }
      (s9, ["show.bs.tooltip", "inserted.bs.tooltip", "shown.bs.tooltip"])

/-- Model of `Tooltip.hide`.  The `tip` getter runs before the cancelable `hide`
event (building the detached tip if it did not exist); there is no
currently-shown guard, so the body runs even for a hidden tooltip. -/
def tooltipHide (env : TooltipEnv) (s : TooltipState) : TooltipState × List String :=
  let s0 := { s with tipBuilt := true }
  if env.preventDefault "hide.bs.tooltip" then (s0, ["hide.bs.tooltip"])
  else
    let s1 := { s0 with autoUpdateActive := false }
    let s2 := { s1 with tipClassIn := false }
    let s3 := { s2 with hoverState := "", activeTriggerClick := false }
    let s4 := { s3 with tipInDom := false }
    let s5 := { s4 with ariaDescribedBy := none }
    (s5, ["hide.bs.tooltip", "hidden.bs.tooltip"])

/-- Popover state: the inherited tooltip state plus the `content` option. -/
structure PopoverState where
  base : TooltipState
  optContent : String
  deriving Repr, DecidableEq

/-- Model of `Popover._hasContent()`: `this._getTitle() || this._getContent()`. -/
def popoverHasContent (s : PopoverState) : Bool :=
  !(s.base.optTitle = "") || !(s.optContent = "")

/-- Model of `Popover.show`: abort before any event when there is neither title nor
content, else run the inherited `Tooltip.show` (whose `_triggerEvent` is
overridden to rename the namespace to `.bs.popover`; `_setContent` fills
the popover title/content elements from the same resolved title). -/
def popoverShow (env : TooltipEnv) (s : PopoverState) : PopoverState × List String :=
  if !popoverHasContent s then (s, [])
  else
    let r := tooltipShow env s.base
    ({ s with base := r.1 },
     r.2.map (fun e => e.replace ".bs.tooltip" ".bs.popover"))

/-! ## Tab (`src/unnamed/part_003`, class `Tab`)

One nav container with its `<li>` items (indexed; each holds one tab link)
and the associated content panes.  `navTransitioning` models membership of
the container in the module-level `transitioningContainers` WeakSet.  The
`requestAnimationFrame` unlock-and-notify step is executed at the end of
`show` (the claims here do not depend on frame timing). -/

structure TabLi where
  active : Bool
  disabled : Bool
  deriving Repr, DecidableEq

structure TabPane where
  active : Bool
  classIn : Bool
  classFade : Bool
  deriving Repr, DecidableEq

structure TabDoc where
  navTransitioning : Bool
  liLen : Nat
  lis : Nat → TabLi
  paneLen : Nat
  panes : Nat → TabPane

structure TabEnv where
  preventDefault : Nat → String → Bool

/-- The previously active tab: `children(listElement).filter(hasClass ACTIVE)[0]`. -/
def tabPrevious (doc : TabDoc) : Option Nat :=
  (List.range doc.liLen).find? (fun j => (doc.lis j).active)

/-- Model of `Tab._activate` on the nav: deactivate every active `<li>`, then add
`active` to the shown link's parent `<li>`. -/
def tabActivateNav (doc : TabDoc) (i : Nat) : TabDoc :=
  let doc1 := { doc with lis := fun k =>
    (if (doc.lis k).active then { (doc.lis k) with active := false } else doc.lis k) }
  { doc1 with lis := fun k =>
    (if k = i then { (doc1.lis k) with active := true } else doc1.lis k) }

/-- Model of `Tab._activate` on the panes: strip `active`/`in` from active sibling
panes, add `active` to the target pane and `in` when it fades. -/
def tabActivatePane (doc : TabDoc) (t : Nat) : TabDoc :=
  let doc1 := { doc with panes := fun k =>
    (if (doc.panes k).active then { (doc.panes k) with active := false, classIn := false }
     else doc.panes k) }
  { doc1 with panes := fun k =>
    (if k = t then
      let p := doc1.panes k
      { p with active := true, classIn := p.classFade || p.classIn }
     else doc1.panes k) }

/-- Model of `Tab.show` for the link living in `<li>` number `i`, with the link's
own `disabled` class and its resolved target pane.  Guards in source
order: the per-container transition lock, the already-active `<li>`, the
disabled link/`<li>`; then cancelable `show.bs.tab` (related: previous
tab) and cancelable `hide.bs.tab` on the previous tab; then the
synchronous class swaps and, after the frame, `shown`/`hidden`. -/
def tabShow (env : TabEnv) (i : Nat) (linkDisabled : Bool) (targetPane : Option Nat)
    (doc : TabDoc) : TabDoc × List (Nat × String) :=
  if doc.navTransitioning then (doc, [])
  else if (doc.lis i).active then (doc, [])
  else if linkDisabled || (doc.lis i).disabled then (doc, [])
  else
    let previous := tabPrevious doc
    if env.preventDefault i "show.bs.tab" then (doc, [(i, "show.bs.tab")])
    else
      let hideEvents : List (Nat × String) :=
        match previous with
        | some p => if p ≠ i then [(p, "hide.bs.tab")] else []
        | none => []
      let hidePrevented :=
        match previous with
        | some p => p ≠ i && env.preventDefault p "hide.bs.tab"
        | none => false
      if hidePrevented then (doc, (i, "show.bs.tab") :: hideEvents)
      else
        let doc1 := { doc with navTransitioning := true }
        let doc2 := tabActivateNav doc1 i
        let doc3 := match targetPane with
          | some t => tabActivatePane doc2 t
          | none => doc2
        let doc4 := { doc3 with navTransitioning := false }
        let tailEvents : List (Nat × String) :=
          match previous with
          | some p => if p ≠ i then [(i, "shown.bs.tab"), (p, "hidden.bs.tab")]
                      else [(i, "shown.bs.tab")]
          | none => [(i, "shown.bs.tab")]
        (doc4, (i, "show.bs.tab") :: hideEvents ++ tailEvents)

/-! ## Collapse (`src/unnamed/part_001`, class `Collapse`)

A document of collapse panels sharing one declared parent (the accordion
case); `hasParent` is whether the instance resolved a parent element, and
`parentFromSelector` whether the `parent` option was set (in which case
the `$$('.in, .collapsing', parent)` actives are filtered by
`closest(elem, parent) === this._parent`, which in a one-parent document
keeps everything; otherwise they are filtered by `hasClass(elem, 'collapse')`).
Heights are measured from the environment; the inline height is in px. -/

structure CollapsePanel where
  classIn : Bool
  classCollapse : Bool
  classCollapsing : Bool
  isTransitioning : Bool
  hasInstance : Bool
  styleHeight : Option Int
  styleOverflow : Option String
  triggerCollapsed : Bool
  triggerAriaExpanded : Option Bool
  deriving Repr, DecidableEq

structure CollapseDoc where
  len : Nat
  panels : Nat → CollapsePanel
  hasParent : Bool
  parentFromSelector : Bool

def CollapseDoc.upd (doc : CollapseDoc) (j : Nat) (p : CollapsePanel) : CollapseDoc :=
  { doc with panels := fun k => if k = j then p else doc.panels k }

structure CollapseEnv where
  preventDefault : Nat → String → Bool
  measuredScrollHeight : Nat → Int

/-- The accordion `actives` list of `Collapse.show`: panels matching
`.in, .collapsing` under the parent, filtered as the source does. -/
def collapseActives (doc : CollapseDoc) : List Nat :=
  if doc.hasParent then
    (List.range doc.len).filter (fun j =>
      let q := doc.panels j
      (q.classIn || q.classCollapsing) &&
        (if doc.parentFromSelector then true else q.classCollapse))
  else []

/-- Model of the check `activesData.some(data => data && data._isTransitioning)`. -/
def collapseActivesTransitioning (doc : CollapseDoc) : Bool :=
  (collapseActives doc).any (fun j =>
    (doc.panels j).hasInstance && (doc.panels j).isTransitioning)

/-- Model of `Collapse.hide`: no-op while transitioning or when not expanded;
cancelable `hide.bs.collapse`; measure, switch `collapse in` →
`collapsing`, sync triggers, animate to zero, finalize to `collapse`;
`hidden.bs.collapse`. -/
def collapseHide (env : CollapseEnv) (i : Nat) (doc : CollapseDoc) :
    CollapseDoc × List (Nat × String) :=
  let p := doc.panels i
  if p.isTransitioning || !p.classIn then (doc, [])
  else if env.preventDefault i "hide.bs.collapse" then (doc, [(i, "hide.bs.collapse")])
  else
    let p1 := { p with isTransitioning := true }
    let p2 := { p1 with styleHeight := some (env.measuredScrollHeight i) }
    let p3 := { p2 with classCollapse := false, classIn := false,
                        classCollapsing := true, styleOverflow := some "hidden" }
    let p4 := { p3 with triggerCollapsed := true, triggerAriaExpanded := some false }
    let p5 := { p4 with styleHeight := none, styleOverflow := none,
                        classCollapsing := false, classCollapse := true,
                        isTransitioning := false }
    (doc.upd i p5, [(i, "hide.bs.collapse"), (i, "hidden.bs.collapse")])

/-- The accordion loop of `Collapse.show`: for every other active panel,
`instance.hide()` when an instance is registered, else strip `in`. -/
def collapseCloseActives (env : CollapseEnv) (i : Nat)
    (st : CollapseDoc × List (Nat × String)) (j : Nat) :
    CollapseDoc × List (Nat × String) :=
  if j = i then st
  else
    let q := st.1.panels j
    if q.hasInstance then
      let r := collapseHide env j st.1
      (r.1, st.2 ++ r.2)
    else (st.1.upd j { q with classIn := false }, st.2)

/-- Model of `Collapse.show`: no-op while transitioning or already expanded; abort
(before any event) when a sibling in the accordion group is mid-transition;
cancelable `show.bs.collapse`; hide the other actives; run the expand
transition (collapsing classes, inline height 0 → measured, trigger sync,
finalize to `collapse in`); `shown.bs.collapse`. -/
def collapseShow (env : CollapseEnv) (i : Nat) (doc : CollapseDoc) :
    CollapseDoc × List (Nat × String) :=
  let p := doc.panels i
  if p.isTransitioning || p.classIn then (doc, [])
  else
    let actives := collapseActives doc
    if collapseActivesTransitioning doc then (doc, [])
    else if env.preventDefault i "show.bs.collapse" then (doc, [(i, "show.bs.collapse")])
    else
      let folded := actives.foldl (collapseCloseActives env i) (doc, [])
      let doc1 := folded.1
      let p1 := doc1.panels i
      let p2 := { p1 with isTransitioning := true }
      let p3 := { p2 with classCollapse := false, classCollapsing := true,
                          styleHeight := some 0, styleOverflow := some "hidden" }
      let p4 := { p3 with triggerCollapsed := false, triggerAriaExpanded := some true }
      let p5 := { p4 with styleHeight := none, styleOverflow := none,
                          classCollapsing := false, classCollapse := true,
                          classIn := true, isTransitioning := false }
      (doc1.upd i p5,
       (i, "show.bs.collapse") :: folded.2 ++ [(i, "shown.bs.collapse")])

/-- Model of `Collapse.toggle`: `hasClass(element, 'in') ? hide() : show()`. -/
def collapseToggle (env : CollapseEnv) (i : Nat) (doc : CollapseDoc) :
    CollapseDoc × List (Nat × String) :=
  if (doc.panels i).classIn then collapseHide env i doc else collapseShow env i doc

/-! ## Carousel (`src/src/components/carousel.js`)

Items are identified with their positional index `0, …, n-1` among the
`.item` elements; `active` is the index carrying `.item.active` (if any).
`slidListeners` models the listeners for `slid.bs.carousel` that `to()`
registers mid-slide.  The call site writes
`on(this._element, EVENTS.SLID, () => this.to(index), { once: true })`,
but `on` from `src/src/utils/events.js` is
`on(element, eventType, handler, delegatedHandler, options = {})`: the
`{ once: true }` object lands in the unused `delegatedHandler` parameter
and `addEventListener` runs with the empty default options, so the
registered listener is persistent (the jqnext-generation `on` in
`src/unnamed/part_002` likewise drops options — "ignore options, not
supported").  Removing a listener after its first run would be the
`once` helper of `src/src/utils/events.js`, which `to()` does not use. -/

inductive CDir
  | next
  | prev
  deriving Repr, DecidableEq

structure CarouselState where
  n : Nat
  active : Option Nat
  classSlide : Bool
  isSliding : Bool
  isPaused : Bool
  intervalSet : Bool
  slidListeners : List Int
  indicatorActive : Option Nat
  optWrap : Bool
  optInterval : Nat
  deriving Repr, DecidableEq

structure CarouselEnv where
  preventDefault : String → Bool

/-- Model of `Carousel._getItemIndex(element)`: `indexOf`, `-1` when absent. -/
def carouselItemIndex (n : Nat) (el : Option Nat) : Int :=
  match el with
  | some x => if x < n then (x : Int) else -1
  | none => -1

/-- Model of `Carousel._getItemByDirection`: wrap-aware stepping; with `wrap:false`
a step past either end returns the active element unchanged.  JS `%` is
truncated division remainder (`Int.tmod`), and a `-1` result selects the
last item. -/
def carouselGetItemByDirection (wrap : Bool) (n : Nat) (isNext : Bool)
    (activeIndex : Nat) : Nat :=
  let lastItemIndex := n - 1
  let isGoingToWrap := (!isNext && activeIndex == 0) || (isNext && activeIndex == lastItemIndex)
  if isGoingToWrap && !wrap then activeIndex
  else
    let delta : Int := if !isNext then -1 else 1
    let itemIndex : Int := ((activeIndex : Int) + delta).tmod (n : Int)
    (if itemIndex = -1 then (n : Int) - 1 else itemIndex).toNat

/-- The `nextElement` computation at the top of `Carousel._slide`:
`element || (activeElement && this._getItemByDirection(direction, activeElement))`. -/
def carouselNextElement (s : CarouselState) (direction : CDir)
    (explicitTarget : Option Nat) : Option Nat :=
  match explicitTarget with
  | some e => some e
  | none => s.active.map (carouselGetItemByDirection s.optWrap s.n (direction == CDir.next))

/-- Model of `Carousel.pause()` called internally (no event argument). -/
def carouselPause (s : CarouselState) : CarouselState :=
  { s with isPaused := true, intervalSet := false }

/-- Model of `Carousel.cycle()` called internally (no event argument): clears the
pause flag and the old timer, then re-arms when an interval is configured. -/
def carouselCycle (s : CarouselState) : CarouselState :=
  let s1 := { s with isPaused := false, intervalSet := false }
  if s1.optInterval ≠ 0 && !s1.isPaused then { s1 with intervalSet := true } else s1

/-- Model of `Carousel._slide(direction, element?)`: compute the target, reject when
it equals the active element (before any event), dispatch cancelable
`slide.bs.carousel`, guard missing elements, set the sliding flag, pause
auto-cycling, move the indicator, swap the `active` class (after the two
transform animations when the container has `.slide`), clear the flag,
dispatch `slid.bs.carousel`, resume cycling. -/
def carouselSlide (env : CarouselEnv) (direction : CDir) (explicitTarget : Option Nat)
    (s : CarouselState) : CarouselState × List String :=
  let activeElement := s.active
  let nextElement := carouselNextElement s direction explicitTarget
  let nextElementIndex := carouselItemIndex s.n nextElement
  let isCycling := s.intervalSet
  if nextElement = activeElement then (s, [])
  else if env.preventDefault "slide.bs.carousel" then (s, ["slide.bs.carousel"])
  else if activeElement = none || nextElement = none then (s, ["slide.bs.carousel"])
  else
    let s1 := { s with isSliding := true }
    let s2 := if isCycling then carouselPause s1 else s1
    let s3 := { s2 with indicatorActive :=
      if 0 ≤ nextElementIndex then some nextElementIndex.toNat else none }
    let s4 := { s3 with active := nextElement }
    let s5 := { s4 with isSliding := false }
    let s6 := if isCycling then carouselCycle s5 else s5
    (s6, ["slide.bs.carousel", "slid.bs.carousel"])

/-- Model of `Carousel.to(index)`: silently drop out-of-range indices; while a slide
is in flight, register a `slid` listener re-invoking `to(index)` and do
nothing else (persistently — the intended `{ once: true }` never reaches
`addEventListener`, see the section comment); a same-index call restarts
auto-cycling; otherwise slide towards the requested item. -/
def carouselTo (env : CarouselEnv) (index : Int) (s : CarouselState) :
    CarouselState × List String :=
  let activeIndex := carouselItemIndex s.n s.active
  if index > (s.n : Int) - 1 || index < 0 then (s, [])
  else if s.isSliding then ({ s with slidListeners := s.slidListeners ++ [index] }, [])
  else if activeIndex = index then (carouselCycle (carouselPause s), [])
  else
    let direction := if index > activeIndex then CDir.next else CDir.prev
    carouselSlide env direction (some index.toNat) s

/-- Model of `Carousel.next()`: `if (!this._isSliding) this._slide('next')`. -/
def carouselNext (env : CarouselEnv) (s : CarouselState) : CarouselState × List String :=
  if !s.isSliding then carouselSlide env CDir.next none s else (s, [])

/-- Model of `Carousel.prev()`: `if (!this._isSliding) this._slide('prev')`. -/
def carouselPrev (env : CarouselEnv) (s : CarouselState) : CarouselState × List String :=
  if !s.isSliding then carouselSlide env CDir.prev none s else (s, [])

/-- Delivery of one `slid.bs.carousel` event to the listeners registered
by `to()`.  Because the `{ once: true }` option never reaches
`addEventListener` (see the section comment), the listeners are
persistent: each registered `to(index)` runs on every delivery and none
is removed. -/
def carouselDispatchSlid (env : CarouselEnv) (s : CarouselState) :
    CarouselState × List String :=
  s.slidListeners.foldl (fun (st : CarouselState × List String) idx =>
    let r := carouselTo env idx st.1
    (r.1, st.2 ++ r.2)) (s, [])

/-! ## Alert (`src/src/components/scrollspy.js` bundle, class `Alert`) -/

structure AlertState where
  inDom : Bool
  classIn : Bool
  classFade : Bool
  instanceRegistered : Bool
  deriving Repr, DecidableEq

structure AlertEnv where
  preventDefault : String → Bool

/-- Model of `Alert.close` on the instance's own element: cancelable
`close.bs.alert`; then `_removeElement` strips `in`, fades out when
`.fade` is present, fires `closed.bs.alert`, disposes the instance and
removes the element from the document. -/
def alertClose (env : AlertEnv) (s : AlertState) : AlertState × List String :=
  if env.preventDefault "close.bs.alert" then (s, ["close.bs.alert"])
  else
    let s1 := { s with classIn := false }
    let s2 := { s1 with instanceRegistered := false, inDom := false }
    (s2, ["close.bs.alert", "closed.bs.alert"])

/-! ## Affix (`src/unnamed/part_004`, class `Affix`)

`affixed` mirrors `this._affixed` (`null` initially, then `false`, `true`,
`'top'` or `'bottom'`); `unpin` mirrors `this._unpin`.  Offsets resolved
by `_getOffset` are plain numbers here (`none` mirroring an
undefined/null side); function-valued offsets are not modelled. -/

inductive AffixVal
  | off
  | on
  | top
  | bottom
  deriving Repr, DecidableEq

structure AffixState where
  affixed : Option AffixVal
  unpin : Option Int
  pinnedOffset : Option Int
  classAffix : Bool
  classAffixTop : Bool
  classAffixBottom : Bool
  styleTop : Option Int
  stylePosition : Option String
  deriving Repr, DecidableEq

structure AffixEnv where
  preventDefault : String → Bool
  displayNone : Bool
  scrollTop : Int
  scrollHeight : Int
  positionTop : Int
  targetHeight : Int
  elementOffsetHeight : Int
  offsetTop : Option Int
  offsetBottom : Option Int

/-- The `affix` value computed by the if/else-if chain of
`Affix._checkPosition`, including the final `affix === null` default
(`scrollTop >= offsetTop`), after which it is never `null`. -/
def affixComputeVal (env : AffixEnv) (s : AffixState) : AffixVal :=
  let chain : Option AffixVal :=
    if (match s.unpin with
        | some u => decide (env.scrollTop + u ≤ env.positionTop)
        | none => false) then
      some AffixVal.off
    else if env.offsetBottom.isSome then
      (if env.scrollHeight - env.offsetBottom.getD 0 ≤ env.scrollTop + env.targetHeight
       then some AffixVal.bottom else none)
    else if env.offsetTop.isSome then
      (if env.scrollTop ≤ env.offsetTop.getD 0 then some AffixVal.top else none)
    else none
  match chain with
  | some v => v
  | none => if env.offsetTop.getD 0 ≤ env.scrollTop then AffixVal.on else AffixVal.off

/-- The event name prefix for a state change to `v`:
`affix`, `affix-top` or `affix-bottom` (the `false` target also uses `affix`). -/
def affixEventName (v : AffixVal) : String :=
  match v with
  | AffixVal.bottom => "affix-bottom"
  | AffixVal.top => "affix-top"
  | _ => "affix"

/-- Model of `Affix._getPinnedOffset`: `if (this._pinnedOffset) return this._pinnedOffset;`
— the cache hit is a JS truthiness test, so a cached value of `0` (like a
missing one) recomputes, swapping the element to the plain `affix` class
before measuring. -/
def affixGetPinnedOffset (env : AffixEnv) (s : AffixState) : Int × AffixState :=
  if (match s.pinnedOffset with
      | some p => decide (p ≠ 0)
      | none => false) then
    (s.pinnedOffset.getD 0, s)
  else
    let s1 := { s with classAffixTop := false, classAffixBottom := false,
                       classAffix := true }
    let p := env.scrollTop - env.positionTop
    (p, { s1 with pinnedOffset := some p })

/-- Model of `Affix._checkPosition`.  Note the order fixed by the source: after the
no-change early return, the unpin cleanup `this._element.style.top = ''`
runs BEFORE the cancelable pre-event is dispatched; the class and
position updates run after it. -/
def affixCheckPosition (env : AffixEnv) (s : AffixState) : AffixState × List String :=
  if env.displayNone then (s, [])
  else
    let affix := affixComputeVal env s
    if s.affixed = some affix then (s, [])
    else
      let s1 := if s.unpin.isSome then { s with styleTop := none } else s
      let preEvent := affixEventName affix ++ ".bs.affix"
      if env.preventDefault preEvent then (s1, [preEvent])
      else
        let s2 := { s1 with affixed := some affix }
        let pinned := affixGetPinnedOffset env s2
        let s3 := if affix = AffixVal.bottom
                  then { pinned.2 with unpin := some pinned.1 }
                  else { s2 with unpin := none }
        let s4 := { s3 with classAffix := false, classAffixTop := false,
                            classAffixBottom := false }
        let s5 :=
          match affix with
          | AffixVal.bottom => { s4 with classAffixBottom := true }
          | AffixVal.top => { s4 with classAffixTop := true }
          | AffixVal.on => { s4 with classAffix := true }
          | AffixVal.off => s4
        let s6 :=
          if affix = AffixVal.bottom then
            { s5 with stylePosition := some "absolute",
                      styleTop := some (env.scrollHeight - env.elementOffsetHeight -
                                        env.offsetBottom.getD 0) }
          else { s5 with stylePosition := none, styleTop := none }
        let postEvent := (affixEventName affix).replace "affix" "affixed" ++ ".bs.affix"
        (s6, [preEvent, postEvent])

/-! ## Scrollspy (`src/src/components/scrollspy.js`)

`refresh()` leaves `_targets`/`_offsets` as parallel lists sorted by
offset ascending; `_process()` then selects the target for the current
scroll position.  `_activate(target)` sets `_activeTarget`, rebuilds the
nav `active` classes and fires `activate.bs.scrollspy` with the target;
the class propagation through the nav tree is summarised by the
`activeTarget` field, and an emitted event records the activated target
identifier. -/

structure SpyState where
  offsets : List Int
  targets : List String
  activeTarget : Option String
  deriving Repr, DecidableEq

structure SpyEnv where
  scrollTop : Int
  scrollHeight : Int
  offsetHeight : Int
  offsetOpt : Int

/-- The reverse scan `for (let i = this._offsets.length; i--;)` of
`Scrollspy._process`: index `i = k - 1` is examined first, then the lower
indices; an index activates when its target is not already active, its
offset is at or below the position, and the following offset (when it
exists) is above it. -/
def spyScan (pos : Int) (offsets : List Int) (targets : List String) :
    Nat → Option String → Option String × List (String × String)
  | 0, active => (active, [])
  | k + 1, active =>
    let t := targets.getD k ""
    if active ≠ some t ∧ offsets.getD k 0 ≤ pos ∧
        (offsets.length ≤ k + 1 ∨ pos < offsets.getD (k + 1) 0) then
      let rest := spyScan pos offsets targets k (some t)
      (rest.1, ("activate.bs.scrollspy", t) :: rest.2)
    else spyScan pos offsets targets k active

/-- Model of `Scrollspy._process`: position is scroll position plus the configured
offset; at or past the maximum scrollable extent the last target is
activated (unless already active); before the first target's positive
offset an existing active state is cleared; otherwise the reverse scan
runs. -/
def spyProcess (env : SpyEnv) (s : SpyState) : SpyState × List (String × String) :=
  let scrollTop := env.scrollTop + env.offsetOpt
  let maxScroll := env.offsetOpt + env.scrollHeight - env.offsetHeight
  if s.offsets.length = 0 then (s, [])
  else if maxScroll ≤ scrollTop then
    let target := s.targets.getD (s.targets.length - 1) ""
    if s.activeTarget ≠ some target then
      ({ s with activeTarget := some target }, [("activate.bs.scrollspy", target)])
    else (s, [])
  else if s.activeTarget ≠ none ∧ scrollTop < s.offsets.getD 0 0 ∧
      0 < s.offsets.getD 0 0 then
    ({ s with activeTarget := none }, [])
  else
    let r := spyScan scrollTop s.offsets s.targets s.offsets.length s.activeTarget
    ({ s with activeTarget := r.1 }, r.2)

/-! ## Concrete fixtures used by witnesses and counterexamples -/

/-- A hidden, non-transitioning fade modal with the default options. -/
def modalHidden : ModalState :=
  { isShown := false, isTransitioning := false, classFade := true, classIn := false,
    ariaModal := none, ariaHidden := some "true", roleAttr := none, styleDisplay := none,
    stylePaddingLeft := none, stylePaddingRight := none, isBodyOverflowing := false,
    scrollbarWidth := 0, bodyClassOpen := false, bodyPaddingRight := none,
    backdropPresent := false, backdropClassFade := false, backdropClassIn := false,
    optBackdrop := true }

/-- A shown, settled modal (the state after a completed `show()`). -/
def modalShownSt : ModalState :=
  { modalHidden with isShown := true, classIn := true, ariaModal := some "true",
                     ariaHidden := none, roleAttr := some "dialog",
                     styleDisplay := some "block", bodyClassOpen := true,
                     backdropPresent := true, backdropClassFade := true,
                     backdropClassIn := true }

/-- A browser environment in which no handler prevents anything. -/
def modalEnvQuiet : ModalEnv :=
  { preventDefault := fun _ => false, measuredBodyOverflowing := false,
    measuredScrollbarWidth := 15, bodyComputedPadding := 0, modalOverflowing := false }

/-- A browser environment whose handlers prevent every cancelable event. -/
def modalEnvPrevent : ModalEnv :=
  { modalEnvQuiet with preventDefault := fun _ => true }

/-- An open dropdown with a registered instance on its toggle. -/
def ddItemOpen : DdItem :=
  { isOpen := true, ariaExpanded := some "true", disabled := false,
    hasToggle := true, hasInstance := true }

/-- A closed dropdown with a registered instance on its toggle. -/
def ddItemClosed : DdItem :=
  { isOpen := false, ariaExpanded := none, disabled := false,
    hasToggle := true, hasInstance := true }

/-- Two dropdowns: number 0 (called A) open, number 1 (called B) closed. -/
def ddDocPair : DdDoc :=
  { len := 2, items := fun k => if k = 0 then ddItemOpen else ddItemClosed }

def ddEnvQuiet : DdEnv := { preventDefault := fun _ _ => false }

def ddEnvPrevent : DdEnv := { preventDefault := fun _ _ => true }

/-- An enabled, hidden tooltip with a non-empty title. -/
def tooltipHiddenSt : TooltipState :=
  { isEnabled := true, optTitle := "hello", optAnimation := true, tipBuilt := false,
    tipClassFade := false, tipClassIn := false, tipPlacementClass := none,
    tipInDom := false, tipContent := none, tipStyleOpacity := none,
    tipStyleDisplay := none, tipId := none, ariaDescribedBy := none,
    hoverState := "", activeTriggerClick := false, autoUpdateActive := false }

/-- An enabled, hidden tooltip whose resolved title is empty. -/
def tooltipEmptyTitle : TooltipState := { tooltipHiddenSt with optTitle := "" }

def ttEnvQuiet : TooltipEnv :=
  { preventDefault := fun _ => false, uid := 7, computedPlacement := "top" }

def ttEnvPrevent : TooltipEnv := { ttEnvQuiet with preventDefault := fun _ => true }

/-- A popover with neither title nor content. -/
def popoverEmpty : PopoverState := { base := tooltipEmptyTitle, optContent := "" }

/-- An expanded collapse panel with a registered instance. -/
def collapsePanelIn : CollapsePanel :=
  { classIn := true, classCollapse := true, classCollapsing := false,
    isTransitioning := false, hasInstance := true, styleHeight := none,
    styleOverflow := none, triggerCollapsed := false, triggerAriaExpanded := some true }

/-- A collapsed panel with a registered instance. -/
def collapsePanelOut : CollapsePanel :=
  { collapsePanelIn with classIn := false, triggerCollapsed := true,
                         triggerAriaExpanded := some false }

/-- An accordion of two panels: number 0 expanded, number 1 collapsed. -/
def collapseDocPair : CollapseDoc :=
  { len := 2, panels := fun k => if k = 0 then collapsePanelIn else collapsePanelOut,
    hasParent := true, parentFromSelector := true }

def collapseEnvQuiet : CollapseEnv :=
  { preventDefault := fun _ _ => false, measuredScrollHeight := fun _ => 120 }

def collapseEnvPrevent : CollapseEnv :=
  { collapseEnvQuiet with preventDefault := fun _ _ => true }

/-- A nav of two tabs, number 0 active, with index-aligned panes. -/
def tabDocPair : TabDoc :=
  { navTransitioning := false, liLen := 2,
    lis := fun k => if k = 0 then { active := true, disabled := false }
                    else { active := false, disabled := false },
    paneLen := 2,
    panes := fun k => if k = 0 then { active := true, classIn := true, classFade := false }
                      else { active := false, classIn := false, classFade := false } }

def tabEnvQuiet : TabEnv := { preventDefault := fun _ _ => false }

def tabEnvPrevent : TabEnv := { preventDefault := fun _ _ => true }

/-- A handler set that lets `show.bs.tab` through but prevents the
cancelable `hide.bs.tab` dispatched on the previous tab (index 0). -/
def tabEnvPreventHide : TabEnv :=
  { preventDefault := fun j e => j == 0 && e == "hide.bs.tab" }

/-- A three-item animated carousel at the first slide, idle, wrap disabled. -/
def carouselFirstNoWrap : CarouselState :=
  { n := 3, active := some 0, classSlide := true, isSliding := false, isPaused := false,
    intervalSet := false, slidListeners := [], indicatorActive := some 0,
    optWrap := false, optInterval := 0 }

/-- The same carousel at the last slide. -/
def carouselLastNoWrap : CarouselState := { carouselFirstNoWrap with active := some 2 }

/-- A wrapping carousel mid-slide, with no registered slid listener. -/
def carouselSliding : CarouselState :=
  { carouselFirstNoWrap with optWrap := true, isSliding := true }

/-- An idle wrapping carousel with one registered slid listener for a jump to slide 2. -/
def carouselQueued : CarouselState :=
  { carouselFirstNoWrap with optWrap := true, slidListeners := [2] }

def carEnvQuiet : CarouselEnv := { preventDefault := fun _ => false }

def carEnvPrevent : CarouselEnv := { preventDefault := fun _ => true }

/-- A live alert with `fade in` classes. -/
def alertLive : AlertState :=
  { inDom := true, classIn := true, classFade := true, instanceRegistered := true }

def alertEnvPrevent : AlertEnv := { preventDefault := fun _ => true }

/-- A bottom-pinned affix element (so `unpin` is set and the inline `top`
holds the computed absolute position). -/
def affixPinnedBottom : AffixState :=
  { affixed := some AffixVal.bottom, unpin := some 10, pinnedOffset := some 10,
    classAffix := false, classAffixTop := false, classAffixBottom := true,
    styleTop := some 500, stylePosition := some "absolute" }

/-- Scrolled back up far enough that the unpin check demands `false`, with
every cancelable event prevented. -/
def affixEnvPrevent : AffixEnv :=
  { preventDefault := fun _ => true, displayNone := false, scrollTop := 0,
    scrollHeight := 1000, positionTop := 100, targetHeight := 300,
    elementOffsetHeight := 50, offsetTop := some 0, offsetBottom := none }

/-- A registry holding instance `42` for element `0`, key `"bs.modal"`. -/
def regSample : Registry Nat := { table := [((0, "bs.modal"), 42)] }

/-- A constructor producing a fresh instance `99` and self-registering. -/
def ctorSample : Registry Nat → Nat × Registry Nat :=
  fun r => (99, regSetInstance r 0 "bs.modal" 99)

/-- The spec scenario: three targets at offsets `[0, 300, 700]`. -/
def spyScenario : SpyState :=
  { offsets := [0, 300, 700], targets := ["#one", "#two", "#three"], activeTarget := none }

def spyEnv305 : SpyEnv :=
  { scrollTop := 305, scrollHeight := 2000, offsetHeight := 600, offsetOpt := 10 }

def spyEnv705 : SpyEnv := { spyEnv305 with scrollTop := 705 }

/-! ## Claims -/

/-- C2.  For every element and component kind, at most one live instance
exists at a time: when an instance is already registered for the
`(element, kind)` pair, the shared `getOrCreateInstance` utility, the
per-component static `getOrCreateInstance`, and the legacy jQuery plugin
adapter all return that existing instance and leave the registry
unchanged, invoking no constructor. -/
theorem c2_single_instance (α : Type) :
    (∀ (r : Registry α) (el : Nat) (key : String) (i : α)
        (ctor : Registry α → α × Registry α),
      regGetInstance r el key = some i →
      regGetOrCreateInstance r el key ctor = (i, r)) ∧
    (∀ (r : Registry α) (el : Nat) (key : String) (i : α)
        (ctor : Registry α → α × Registry α),
      regGetInstance r el key = some i →
      staticGetOrCreateInstance r el key ctor = (i, r)) ∧
    (∀ (r : Registry α) (el : Nat) (i : α)
        (ctor : Registry α → α × Registry α),
      regGetInstance r el "bs.modal" = some i →
      pluginModalCall r el ctor = r) := by
  refine ⟨?_, ?_, ?_⟩
  · intro r el key i ctor h
    unfold regGetOrCreateInstance
    rw [h]
  · intro r el key i ctor h
    unfold staticGetOrCreateInstance
    rw [h]
  · intro r el i ctor h
    unfold pluginModalCall
    rw [h]

/-- Witness for C2 at a concrete registry already holding instance `42`. -/
theorem c2_witness :
    regGetInstance regSample 0 "bs.modal" = some 42 ∧
    regGetOrCreateInstance regSample 0 "bs.modal" ctorSample = (42, regSample) ∧
    staticGetOrCreateInstance regSample 0 "bs.modal" ctorSample = (42, regSample) ∧
    pluginModalCall regSample 0 ctorSample = regSample :=
  ⟨rfl,
   (c2_single_instance Nat).1 regSample 0 "bs.modal" 42 ctorSample rfl,
   (c2_single_instance Nat).2.1 regSample 0 "bs.modal" 42 ctorSample rfl,
   (c2_single_instance Nat).2.2 regSample 0 42 ctorSample rfl⟩

/-- Helper: `Modal._adjustDialog` only touches the padding fields. -/
theorem modalAdjustDialog_fields (env : ModalEnv) (s : ModalState) :
    (modalAdjustDialog env s).classIn = s.classIn ∧
    (modalAdjustDialog env s).ariaModal = s.ariaModal ∧
    (modalAdjustDialog env s).styleDisplay = s.styleDisplay := by
  simp only [modalAdjustDialog]
  split <;> split <;> simp

/-- C9.  For Modal: a `show()` that passes its guards and is not prevented
leaves the element carrying the `in` marker class and
`aria-modal="true"`; a `hide()` that passes its guards and is not
prevented leaves the marker class absent and the inline `display` at
`none`. -/
theorem c9_modal_show_hide (env : ModalEnv) (s : ModalState) :
    (s.isShown = false → s.isTransitioning = false →
      env.preventDefault "show.bs.modal" = false →
      (modalShow env s).1.classIn = true ∧
      (modalShow env s).1.ariaModal = some "true") ∧
    (s.isShown = true → s.isTransitioning = false →
      env.preventDefault "hide.bs.modal" = false →
      (modalHide env s).1.classIn = false ∧
      (modalHide env s).1.styleDisplay = some "none") := by
  constructor
  · intro h1 h2 h3
    simp only [modalShow, h1, h2, h3, Bool.or_self, Bool.false_eq_true, if_false]
    unfold modalShowModal
    constructor
    · simp
    · have := modalAdjustDialog_fields env
        ({ modalShowBackdrop
            { modalSetScrollbar env (modalCheckScrollbar env
                { s with isShown := true, isTransitioning := true }) with
              bodyClassOpen := true } with
           styleDisplay := some "block", ariaHidden := none,
           ariaModal := some "true", roleAttr := some "dialog" })
      simp_all
  · intro h1 h2 h3
    simp [modalHide, h1, h2, h3, modalHideModal]

/-- Witness for C9: the concrete hidden modal shown, the shown modal hidden. -/
theorem c9_witness :
    modalHidden.isShown = false ∧ modalShownSt.isShown = true ∧
    ((modalShow modalEnvQuiet modalHidden).1.classIn = true ∧
     (modalShow modalEnvQuiet modalHidden).1.ariaModal = some "true") ∧
    ((modalHide modalEnvQuiet modalShownSt).1.classIn = false ∧
     (modalHide modalEnvQuiet modalShownSt).1.styleDisplay = some "none") :=
  ⟨rfl, rfl,
   (c9_modal_show_hide modalEnvQuiet modalHidden).1 rfl rfl rfl,
   (c9_modal_show_hide modalEnvQuiet modalShownSt).2 rfl rfl rfl⟩

/-- C10.  For every carousel and every integer index outside the item
range, `to(index)` returns before anything else happens: state (classes,
timers, queue) and event output are untouched. -/
theorem c10_to_out_of_range (env : CarouselEnv) (index : Int) (s : CarouselState)
    (h : index < 0 ∨ (s.n : Int) - 1 < index) :
    carouselTo env index s = (s, []) := by
  unfold carouselTo
  have hc : ((index > (s.n : Int) - 1) || (index < 0)) = true := by
    rcases h with h | h <;> simp [h]
  rw [if_pos hc]

/-- Witness for C10 at the three-item carousel with indices `3` and `-1`. -/
theorem c10_witness :
    ((3 : Int) < 0 ∨ (carouselFirstNoWrap.n : Int) - 1 < 3) ∧
    ((-1 : Int) < 0 ∨ (carouselFirstNoWrap.n : Int) - 1 < -1) ∧
    carouselTo carEnvQuiet 3 carouselFirstNoWrap = (carouselFirstNoWrap, []) ∧
    carouselTo carEnvQuiet (-1) carouselFirstNoWrap = (carouselFirstNoWrap, []) :=
  ⟨Or.inr (by decide), Or.inl (by decide),
   c10_to_out_of_range carEnvQuiet 3 carouselFirstNoWrap (Or.inr (by decide)),
   c10_to_out_of_range carEnvQuiet (-1) carouselFirstNoWrap (Or.inl (by decide))⟩

/-- C8.  With `wrap: false`, `prev()` on the first item (and `next()` on
the last) leaves the carousel unchanged and dispatches neither `slide`
nor `slid`: the direction-stepped target equals the current item and the
same-element check rejects it before any event. -/
theorem c8_wrap_false_boundary :
    (∀ (env : CarouselEnv) (s : CarouselState), s.optWrap = false → s.active = some 0 →
      carouselPrev env s = (s, [])) ∧
    (∀ (env : CarouselEnv) (s : CarouselState) (a : Nat), s.optWrap = false →
      s.active = some a → a + 1 = s.n → carouselNext env s = (s, [])) := by
  constructor
  · intro env s hw ha
    unfold carouselPrev
    by_cases hs : s.isSliding
    · simp [hs]
    · simp only [hs, Bool.not_false, if_true]
      unfold carouselSlide carouselNextElement
      simp [ha, carouselGetItemByDirection, hw]
  · intro env s a hw ha hn
    unfold carouselNext
    by_cases hs : s.isSliding
    · simp [hs]
    · simp only [hs, Bool.not_false, if_true]
      unfold carouselSlide carouselNextElement
      have hlast : a = s.n - 1 := by omega
      simp [ha, carouselGetItemByDirection, hw, hlast]

/-- Witness for C8 at the concrete three-item `wrap:false` carousel. -/
theorem c8_witness :
    carouselFirstNoWrap.optWrap = false ∧ carouselFirstNoWrap.active = some 0 ∧
    carouselLastNoWrap.active = some 2 ∧ carouselLastNoWrap.n = 3 ∧
    carouselPrev carEnvQuiet carouselFirstNoWrap = (carouselFirstNoWrap, []) ∧
    carouselNext carEnvQuiet carouselLastNoWrap = (carouselLastNoWrap, []) :=
  ⟨rfl, rfl, rfl, rfl,
   c8_wrap_false_boundary.1 carEnvQuiet carouselFirstNoWrap rfl rfl,
   c8_wrap_false_boundary.2 carEnvQuiet carouselLastNoWrap 2 rfl rfl rfl⟩

/-- C4 (code bug).  `to(index)` during a slide does perform nothing
immediately and registers a `slid` listener re-invoking `to(index)` —
but not a one-time one: the call site hands `{ once: true }` to the
unused `delegatedHandler` parameter of `on`, so `addEventListener`
receives no options and the listener persists (the codebase's own `once`
helper, which `to()` does not use, shows the intended call shape).
Evaluated at the failing input: a mid-slide `to(2)` only registers the
listener; the first `slid` delivery runs the jump to slide 2 once, but
the listener is still registered afterwards, and the `slid` completing a
later `next()` (slide 2 → 0) re-runs `to(2)`, sliding the carousel back
to 2 — contradicting the claimed (and intended) run-exactly-once,
never-re-run behaviour. -/
theorem c4_persistent_listener :
    carouselSliding.isSliding = true ∧
    carouselTo carEnvQuiet 2 carouselSliding =
      ({ carouselSliding with slidListeners := [2] }, []) ∧
    ((carouselDispatchSlid carEnvQuiet carouselQueued).1.active = some 2 ∧
     (carouselDispatchSlid carEnvQuiet carouselQueued).1.slidListeners = [2]) ∧
    (carouselNext carEnvQuiet
      (carouselDispatchSlid carEnvQuiet carouselQueued).1).1.active = some 0 ∧
    ((carouselDispatchSlid carEnvQuiet (carouselNext carEnvQuiet
        (carouselDispatchSlid carEnvQuiet carouselQueued).1).1).1.active = some 2 ∧
     (carouselDispatchSlid carEnvQuiet (carouselNext carEnvQuiet
        (carouselDispatchSlid carEnvQuiet carouselQueued).1).1).2 =
       ["slide.bs.carousel", "slid.bs.carousel"]) := by
  refine ⟨rfl, rfl, ⟨rfl, rfl⟩, rfl, rfl, rfl⟩

/-- C1 (amended).  For Modal, Dropdown, Collapse and Tab, `show` on an
already-shown instance and `hide` on an already-hidden one return at the
initial guard: no lifecycle event is dispatched and no state or class
changes.  (Tooltip and Popover carry no such guard — see the
counterexample — and Carousel exposes no `show`/`hide`.) -/
theorem c1_noop_guards :
    (∀ (env : ModalEnv) (s : ModalState), s.isShown = true →
      modalShow env s = (s, [])) ∧
    (∀ (env : ModalEnv) (s : ModalState), s.isShown = false →
      modalHide env s = (s, [])) ∧
    (∀ (env : DdEnv) (i : Nat) (doc : DdDoc), (doc.items i).isOpen = true →
      ddShow env i doc = (doc, [])) ∧
    (∀ (env : DdEnv) (i : Nat) (doc : DdDoc), (doc.items i).isOpen = false →
      ddHide env i doc = (doc, [])) ∧
    (∀ (env : CollapseEnv) (i : Nat) (doc : CollapseDoc),
      (doc.panels i).classIn = true → collapseShow env i doc = (doc, [])) ∧
    (∀ (env : CollapseEnv) (i : Nat) (doc : CollapseDoc),
      (doc.panels i).classIn = false → collapseHide env i doc = (doc, [])) ∧
    (∀ (env : TabEnv) (i : Nat) (ld : Bool) (tp : Option Nat) (doc : TabDoc),
      (doc.lis i).active = true → tabShow env i ld tp doc = (doc, [])) := by
  refine ⟨?_, ?_, ?_, ?_, ?_, ?_, ?_⟩
  · intro env s h
    unfold modalShow
    simp [h]
  · intro env s h
    unfold modalHide
    simp [h]
  · intro env i doc h
    unfold ddShow
    simp [h]
  · intro env i doc h
    unfold ddHide
    simp [h]
  · intro env i doc h
    unfold collapseShow
    simp [h]
  · intro env i doc h
    unfold collapseHide
    simp [h]
  · intro env i ld tp doc h
    unfold tabShow
    by_cases hn : doc.navTransitioning <;> simp [hn, h]

/-- Witness for C1 (amended), at the concrete fixtures: a shown modal
re-shown, a hidden modal re-hidden, the open dropdown 0 re-shown, the
closed dropdown 1 re-hidden, the expanded panel 0 re-shown, the collapsed
panel 1 re-hidden, the active tab 0 re-shown — all strict no-ops. -/
theorem c1_witness :
    modalShownSt.isShown = true ∧ modalHidden.isShown = false ∧
    modalShow modalEnvQuiet modalShownSt = (modalShownSt, []) ∧
    modalHide modalEnvQuiet modalHidden = (modalHidden, []) ∧
    ddShow ddEnvQuiet 0 ddDocPair = (ddDocPair, []) ∧
    ddHide ddEnvQuiet 1 ddDocPair = (ddDocPair, []) ∧
    collapseShow collapseEnvQuiet 0 collapseDocPair = (collapseDocPair, []) ∧
    collapseHide collapseEnvQuiet 1 collapseDocPair = (collapseDocPair, []) ∧
    tabShow tabEnvQuiet 0 false (some 0) tabDocPair = (tabDocPair, []) :=
  ⟨rfl, rfl,
   c1_noop_guards.1 modalEnvQuiet modalShownSt rfl,
   c1_noop_guards.2.1 modalEnvQuiet modalHidden rfl,
   c1_noop_guards.2.2.1 ddEnvQuiet 0 ddDocPair rfl,
   c1_noop_guards.2.2.2.1 ddEnvQuiet 1 ddDocPair rfl,
   c1_noop_guards.2.2.2.2.1 collapseEnvQuiet 0 collapseDocPair rfl,
   c1_noop_guards.2.2.2.2.2.1 collapseEnvQuiet 1 collapseDocPair rfl,
   c1_noop_guards.2.2.2.2.2.2 tabEnvQuiet 0 false (some 0) tabDocPair rfl⟩

/-- Counterexample for C1 as stated: `Tooltip.hide` has no already-hidden
guard, so calling `hide` on a tooltip whose tip is not shown and not even
in the document still dispatches `hide.bs.tooltip` and
`hidden.bs.tooltip`, contradicting "no lifecycle events are dispatched".
(`Tooltip.show` likewise lacks an already-shown guard.) -/
theorem c1_counterexample :
    tooltipHiddenSt.tipClassIn = false ∧ tooltipHiddenSt.tipInDom = false ∧
    (tooltipHide ttEnvQuiet tooltipHiddenSt).2 =
      ["hide.bs.tooltip", "hidden.bs.tooltip"] := by
  refine ⟨rfl, rfl, rfl⟩

/-- C5 (amended).  `Tooltip.show` aborts with nothing dispatched only when
disabled; when the resolved title is empty the abort happens after the
cancelable `show` event has been dispatched — no `shown` event follows,
the tip is not inserted into the document, and only the internal lazy tip
construction is performed.  `Popover.show` checks `_hasContent()` first
and dispatches nothing when both title and content are empty. -/
theorem c5_show_abort_conditions :
    (∀ (env : TooltipEnv) (s : TooltipState), s.isEnabled = false →
      tooltipShow env s = (s, [])) ∧
    (∀ (env : TooltipEnv) (s : TooltipState), s.isEnabled = true →
      s.optTitle = "" → env.preventDefault "show.bs.tooltip" = false →
      tooltipShow env s = ({ s with tipBuilt := true }, ["show.bs.tooltip"])) ∧
    (∀ (env : TooltipEnv) (s : PopoverState), popoverHasContent s = false →
      popoverShow env s = (s, [])) := by
  refine ⟨?_, ?_, ?_⟩
  · intro env s h
    unfold tooltipShow
    simp [h]
  · intro env s h1 h2 h3
    unfold tooltipShow
    simp [h1, h2, h3]
  · intro env s h
    unfold popoverShow
    simp [h]

/-- Witness for C5 (amended): a disabled tooltip dispatches nothing; the
enabled empty-title tooltip dispatches exactly `show.bs.tooltip` with no
insertion; the empty popover dispatches nothing. -/
theorem c5_witness :
    ({ tooltipHiddenSt with isEnabled := false } : TooltipState).isEnabled = false ∧
    tooltipEmptyTitle.isEnabled = true ∧ tooltipEmptyTitle.optTitle = "" ∧
    popoverHasContent popoverEmpty = false ∧
    tooltipShow ttEnvQuiet { tooltipHiddenSt with isEnabled := false } =
      ({ tooltipHiddenSt with isEnabled := false }, []) ∧
    tooltipShow ttEnvQuiet tooltipEmptyTitle =
      ({ tooltipEmptyTitle with tipBuilt := true }, ["show.bs.tooltip"]) ∧
    popoverShow ttEnvQuiet popoverEmpty = (popoverEmpty, []) :=
  ⟨rfl, rfl, rfl, rfl,
   c5_show_abort_conditions.1 ttEnvQuiet { tooltipHiddenSt with isEnabled := false } rfl,
   c5_show_abort_conditions.2.1 ttEnvQuiet tooltipEmptyTitle rfl rfl rfl,
   c5_show_abort_conditions.2.2 ttEnvQuiet popoverEmpty rfl⟩

/-- Counterexample for C5 as stated: for an enabled tooltip whose resolved
title is empty, `show()` does dispatch the `show.bs.tooltip` event (the
emptiness check sits after the event dispatch), contradicting "no `show`
or `shown` event is dispatched" — even though no tip is inserted. -/
theorem c5_counterexample :
    tooltipEmptyTitle.isEnabled = true ∧ tooltipEmptyTitle.optTitle = "" ∧
    "show.bs.tooltip" ∈ (tooltipShow ttEnvQuiet tooltipEmptyTitle).2 ∧
    (tooltipShow ttEnvQuiet tooltipEmptyTitle).1.tipInDom = false := by
  refine ⟨rfl, rfl, by decide, rfl⟩

/-- Helper: `Dropdown.hide` leaves dropdown `j` without the `open` class
whenever its handlers do not prevent the hide. -/
theorem ddHide_closes (env : DdEnv) (j : Nat) (doc : DdDoc)
    (hnp : env.preventDefault j "hide.bs.dropdown" = false) :
    ((ddHide env j doc).1.items j).isOpen = false := by
  unfold ddHide
  by_cases h : (doc.items j).isOpen
  · simp [h, hnp, DdDoc.upd]
  · simp [h]

/-- Helper: `Dropdown.hide` on dropdown `j` does not touch dropdown `k`. -/
theorem ddHide_other (env : DdEnv) (j : Nat) (doc : DdDoc) (k : Nat) (hk : k ≠ j) :
    (ddHide env j doc).1.items k = doc.items k := by
  unfold ddHide
  by_cases h : (doc.items j).isOpen <;>
    by_cases hp : env.preventDefault j "hide.bs.dropdown" <;>
      simp [h, hp, DdDoc.upd, hk]

/-- Helper: one `closeAll` iteration closes the dropdown it visits. -/
theorem ddCloseAllStep_closes (env : DdEnv) (st : DdDoc × List (Nat × String)) (j : Nat)
    (hnp : env.preventDefault j "hide.bs.dropdown" = false) :
    ((ddCloseAllStep env st j).1.items j).isOpen = false := by
  unfold ddCloseAllStep
  by_cases h1 : (st.1.items j).hasToggle <;> by_cases h2 : (st.1.items j).hasInstance <;>
    simp [h1, h2, DdDoc.upd, ddHide_closes env j st.1 hnp]

/-- Helper: one `closeAll` iteration leaves the other dropdowns alone. -/
theorem ddCloseAllStep_other (env : DdEnv) (st : DdDoc × List (Nat × String)) (j : Nat)
    (k : Nat) (hk : k ≠ j) :
    (ddCloseAllStep env st j).1.items k = st.1.items k := by
  unfold ddCloseAllStep
  by_cases h1 : (st.1.items j).hasToggle <;> by_cases h2 : (st.1.items j).hasInstance <;>
    simp [h1, h2, DdDoc.upd, hk, ddHide_other env j st.1 k hk]

/-- Helper: folding the `closeAll` loop over a worklist closes every
dropdown in the worklist and keeps every already-closed dropdown closed. -/
theorem ddCloseAll_fold_closed (env : DdEnv) (L : List Nat) :
    ∀ (st : DdDoc × List (Nat × String)) (k : Nat),
      (∀ j e, env.preventDefault j e = false) →
      (k ∈ L ∨ (st.1.items k).isOpen = false) →
      ((L.foldl (ddCloseAllStep env) st).1.items k).isOpen = false := by
  induction L with
  | nil =>
    intro st k _ h
    rcases h with h | h
    · cases h
    · simpa using h
  | cons j L ih =>
    intro st k hnp h
    simp only [List.foldl_cons]
    apply ih
    · exact hnp
    · rcases h with h | h
      · rcases List.mem_cons.mp h with rfl | h2
        · exact Or.inr (ddCloseAllStep_closes env st k (hnp k _))
        · exact Or.inl h2
      · by_cases hkj : k = j
        · subst hkj
          exact Or.inr (ddCloseAllStep_closes env st k (hnp k _))
        · rw [ddCloseAllStep_other env st j k hkj]
          exact Or.inr h

/-- Helper: the `closeAll` machinery never changes a dropdown's
`disabled` flag. -/
theorem ddCloseAllStep_disabled (env : DdEnv) (st : DdDoc × List (Nat × String))
    (j : Nat) (k : Nat) :
    ((ddCloseAllStep env st j).1.items k).disabled = (st.1.items k).disabled := by
  unfold ddCloseAllStep ddHide
  by_cases h1 : (st.1.items j).hasToggle <;> by_cases h2 : (st.1.items j).hasInstance <;>
    by_cases h3 : (st.1.items j).isOpen <;>
      by_cases h4 : env.preventDefault j "hide.bs.dropdown" <;>
        by_cases hk : k = j <;> simp [h1, h2, h3, h4, hk, DdDoc.upd]

/-- Helper: folding the `closeAll` loop preserves `disabled` pointwise. -/
theorem ddCloseAll_fold_disabled (env : DdEnv) (L : List Nat) :
    ∀ (st : DdDoc × List (Nat × String)) (k : Nat),
      ((L.foldl (ddCloseAllStep env) st).1.items k).disabled = (st.1.items k).disabled := by
  induction L with
  | nil => intro st k; rfl
  | cons j L ih =>
    intro st k
    simp only [List.foldl_cons]
    rw [ih, ddCloseAllStep_disabled]

/-- C3 (amended).  Exclusivity is enforced by the `toggle` operation:
`Dropdown.toggle` on a closed, enabled dropdown `b` first force-closes
every open dropdown via `closeAll` (each with a registered instance via
its `hide`, the rest by stripping the class) and then opens `b`, so —
when no handler prevents the hides — afterwards `b` carries the `open`
class and every other dropdown in the document does not; in particular
toggling B while A is open leaves A closed and B open.  `Dropdown.show`
alone does not close the others (see the counterexample). -/
theorem c3_toggle_exclusive (env : DdEnv) (doc : DdDoc) (b : Nat)
    (hnp : ∀ j e, env.preventDefault j e = false)
    (hdis : (doc.items b).disabled = false)
    (hopen : (doc.items b).isOpen = false) :
    ((ddToggle env b doc).1.items b).isOpen = true ∧
    (∀ j, j < doc.len → j ≠ b → ((ddToggle env b doc).1.items j).isOpen = false) := by
  have hd2 : ((ddCloseAll env doc).1.items b).disabled = false := by
    unfold ddCloseAll
    rw [ddCloseAll_fold_disabled]
    exact hdis
  have ho2 : ((ddCloseAll env doc).1.items b).isOpen = false := by
    unfold ddCloseAll
    exact ddCloseAll_fold_closed env (ddOpenIndices doc) (doc, []) b hnp (Or.inr hopen)
  have hclosed : ∀ j, j < doc.len → j ≠ b →
      ((ddCloseAll env doc).1.items j).isOpen = false := by
    intro j hj _
    unfold ddCloseAll
    by_cases hjo : (doc.items j).isOpen
    · refine ddCloseAll_fold_closed env (ddOpenIndices doc) (doc, []) j hnp (Or.inl ?_)
      unfold ddOpenIndices
      simp [List.mem_filter, List.mem_range, hj, hjo]
    · exact ddCloseAll_fold_closed env (ddOpenIndices doc) (doc, []) j hnp
        (Or.inr (by simpa using hjo))
  unfold ddToggle
  simp only [hdis, Bool.false_eq_true, if_false, hopen]
  unfold ddShow
  simp only [hd2, ho2, hnp, Bool.or_self, Bool.false_eq_true, if_false]
  constructor
  · simp [DdDoc.upd]
  · intro j hj hjb
    simp only [DdDoc.upd]
    rw [if_neg hjb]
    exact hclosed j hj hjb

/-- Witness for C3 (amended): toggling the closed dropdown B (index 1)
while A (index 0) is open leaves B open and A closed. -/
theorem c3_witness :
    (ddDocPair.items 1).disabled = false ∧ (ddDocPair.items 1).isOpen = false ∧
    (ddDocPair.items 0).isOpen = true ∧
    ((ddToggle ddEnvQuiet 1 ddDocPair).1.items 1).isOpen = true ∧
    ((ddToggle ddEnvQuiet 1 ddDocPair).1.items 0).isOpen = false :=
  ⟨rfl, rfl, rfl,
   (c3_toggle_exclusive ddEnvQuiet ddDocPair 1 (fun _ _ => rfl) rfl rfl).1,
   (c3_toggle_exclusive ddEnvQuiet ddDocPair 1 (fun _ _ => rfl) rfl rfl).2 0
     (by decide) (by decide)⟩

/-- Counterexample for C3 as stated: `Dropdown.show` is also a way to open
a dropdown, and it does not force-close the others — calling `show()` on
the closed dropdown B (index 1) while A (index 0) is open leaves both
carrying the `open` marker class, so more than one dropdown is open at a
settled point. -/
theorem c3_counterexample :
    (ddDocPair.items 0).isOpen = true ∧
    ((ddShow ddEnvQuiet 1 ddDocPair).1.items 0).isOpen = true ∧
    ((ddShow ddEnvQuiet 1 ddDocPair).1.items 1).isOpen = true :=
  ⟨rfl, rfl, rfl⟩

/-- C6 (amended).  For the cancelable pre-events `show`/`hide` (Modal,
Dropdown, Tooltip, Collapse, Tab), `slide` (Carousel) and `close`
(Alert), a handler preventing the event aborts the operation before any
DOM mutation: the state is exactly as before the call and only the
pre-event itself was dispatched (for Tooltip's `hide` the lazily-built,
still-detached tip element may have been constructed beforehand, which
touches nothing in the document).  For Affix the abort happens after one
mutation: when the element was bottom-pinned (`unpin` set), the inline
`top` style has already been cleared before the cancelable
`affix`/`affix-top`/`affix-bottom` event is dispatched (see the
counterexample); all class and position changes still happen only after
the event. -/
theorem c6_prevent_aborts :
    (∀ (env : ModalEnv) (s : ModalState), s.isShown = false →
      s.isTransitioning = false → env.preventDefault "show.bs.modal" = true →
      modalShow env s = (s, ["show.bs.modal"])) ∧
    (∀ (env : ModalEnv) (s : ModalState), s.isShown = true →
      s.isTransitioning = false → env.preventDefault "hide.bs.modal" = true →
      modalHide env s = (s, ["hide.bs.modal"])) ∧
    (∀ (env : DdEnv) (i : Nat) (doc : DdDoc), (doc.items i).disabled = false →
      (doc.items i).isOpen = false → env.preventDefault i "show.bs.dropdown" = true →
      ddShow env i doc = (doc, [(i, "show.bs.dropdown")])) ∧
    (∀ (env : DdEnv) (i : Nat) (doc : DdDoc), (doc.items i).isOpen = true →
      env.preventDefault i "hide.bs.dropdown" = true →
      ddHide env i doc = (doc, [(i, "hide.bs.dropdown")])) ∧
    (∀ (env : TooltipEnv) (s : TooltipState), s.isEnabled = true →
      env.preventDefault "show.bs.tooltip" = true →
      tooltipShow env s = (s, ["show.bs.tooltip"])) ∧
    (∀ (env : TooltipEnv) (s : TooltipState),
      env.preventDefault "hide.bs.tooltip" = true →
      tooltipHide env s = ({ s with tipBuilt := true }, ["hide.bs.tooltip"])) ∧
    (∀ (env : CollapseEnv) (i : Nat) (doc : CollapseDoc),
      (doc.panels i).isTransitioning = false → (doc.panels i).classIn = false →
      collapseActivesTransitioning doc = false →
      env.preventDefault i "show.bs.collapse" = true →
      collapseShow env i doc = (doc, [(i, "show.bs.collapse")])) ∧
    (∀ (env : CollapseEnv) (i : Nat) (doc : CollapseDoc),
      (doc.panels i).isTransitioning = false → (doc.panels i).classIn = true →
      env.preventDefault i "hide.bs.collapse" = true →
      collapseHide env i doc = (doc, [(i, "hide.bs.collapse")])) ∧
    (∀ (env : TabEnv) (i : Nat) (ld : Bool) (tp : Option Nat) (doc : TabDoc),
      doc.navTransitioning = false → (doc.lis i).active = false → ld = false →
      (doc.lis i).disabled = false → env.preventDefault i "show.bs.tab" = true →
      tabShow env i ld tp doc = (doc, [(i, "show.bs.tab")])) ∧
    (∀ (env : TabEnv) (i p : Nat) (ld : Bool) (tp : Option Nat) (doc : TabDoc),
      doc.navTransitioning = false → (doc.lis i).active = false → ld = false →
      (doc.lis i).disabled = false → env.preventDefault i "show.bs.tab" = false →
      tabPrevious doc = some p → p ≠ i → env.preventDefault p "hide.bs.tab" = true →
      tabShow env i ld tp doc = (doc, [(i, "show.bs.tab"), (p, "hide.bs.tab")])) ∧
    (∀ (env : CarouselEnv) (d : CDir) (t : Option Nat) (s : CarouselState),
      carouselNextElement s d t ≠ s.active →
      env.preventDefault "slide.bs.carousel" = true →
      carouselSlide env d t s = (s, ["slide.bs.carousel"])) ∧
    (∀ (env : AlertEnv) (s : AlertState), env.preventDefault "close.bs.alert" = true →
      alertClose env s = (s, ["close.bs.alert"])) ∧
    (∀ (env : AffixEnv) (s : AffixState), env.displayNone = false →
      s.affixed ≠ some (affixComputeVal env s) →
      env.preventDefault (affixEventName (affixComputeVal env s) ++ ".bs.affix") = true →
      affixCheckPosition env s =
        ((if s.unpin.isSome then { s with styleTop := none } else s),
         [affixEventName (affixComputeVal env s) ++ ".bs.affix"])) := by
  refine ⟨?_, ?_, ?_, ?_, ?_, ?_, ?_, ?_, ?_, ?_, ?_, ?_, ?_⟩
  · intro env s h1 h2 h3
    unfold modalShow
    simp [h1, h2, h3]
  · intro env s h1 h2 h3
    unfold modalHide
    simp [h1, h2, h3]
  · intro env i doc h1 h2 h3
    unfold ddShow
    simp [h1, h2, h3]
  · intro env i doc h1 h2
    unfold ddHide
    simp [h1, h2]
  · intro env s h1 h2
    unfold tooltipShow
    simp [h1, h2]
  · intro env s h1
    unfold tooltipHide
    simp [h1]
  · intro env i doc h1 h2 h3 h4
    unfold collapseShow
    simp [h1, h2, h3, h4]
  · intro env i doc h1 h2 h3
    unfold collapseHide
    simp [h1, h2, h3]
  · intro env i ld tp doc h1 h2 h3 h4 h5
    unfold tabShow
    simp [h1, h2, h3, h4, h5]
  · intro env i p ld tp doc h1 h2 h3 h4 h5 h6 h7 h8
    unfold tabShow
    simp [h1, h2, h3, h4, h5, h6, h7, h8]
  · intro env d t s h1 h2
    unfold carouselSlide
    simp [h1, h2]
  · intro env s h1
    unfold alertClose
    simp [h1]
  · intro env s h1 h2 h3
    unfold affixCheckPosition
    simp [h1, h2, h3]

/-- Witness for C6 (amended): every conjunct instantiated at the concrete
fixtures under all-preventing handlers. -/
theorem c6_witness :
    modalShow modalEnvPrevent modalHidden = (modalHidden, ["show.bs.modal"]) ∧
    modalHide modalEnvPrevent modalShownSt = (modalShownSt, ["hide.bs.modal"]) ∧
    ddShow ddEnvPrevent 1 ddDocPair = (ddDocPair, [(1, "show.bs.dropdown")]) ∧
    ddHide ddEnvPrevent 0 ddDocPair = (ddDocPair, [(0, "hide.bs.dropdown")]) ∧
    tooltipShow ttEnvPrevent tooltipHiddenSt = (tooltipHiddenSt, ["show.bs.tooltip"]) ∧
    tooltipHide ttEnvPrevent tooltipHiddenSt =
      ({ tooltipHiddenSt with tipBuilt := true }, ["hide.bs.tooltip"]) ∧
    collapseShow collapseEnvPrevent 1 collapseDocPair =
      (collapseDocPair, [(1, "show.bs.collapse")]) ∧
    collapseHide collapseEnvPrevent 0 collapseDocPair =
      (collapseDocPair, [(0, "hide.bs.collapse")]) ∧
    tabShow tabEnvPrevent 1 false (some 1) tabDocPair =
      (tabDocPair, [(1, "show.bs.tab")]) ∧
    tabShow tabEnvPreventHide 1 false (some 1) tabDocPair =
      (tabDocPair, [(1, "show.bs.tab"), (0, "hide.bs.tab")]) ∧
    carouselSlide carEnvPrevent CDir.next none carouselFirstNoWrap =
      (carouselFirstNoWrap, ["slide.bs.carousel"]) ∧
    alertClose alertEnvPrevent alertLive = (alertLive, ["close.bs.alert"]) ∧
    affixCheckPosition affixEnvPrevent affixPinnedBottom =
      ({ affixPinnedBottom with styleTop := none }, ["affix.bs.affix"]) :=
  ⟨c6_prevent_aborts.1 modalEnvPrevent modalHidden rfl rfl rfl,
   c6_prevent_aborts.2.1 modalEnvPrevent modalShownSt rfl rfl rfl,
   c6_prevent_aborts.2.2.1 ddEnvPrevent 1 ddDocPair rfl rfl rfl,
   c6_prevent_aborts.2.2.2.1 ddEnvPrevent 0 ddDocPair rfl rfl,
   c6_prevent_aborts.2.2.2.2.1 ttEnvPrevent tooltipHiddenSt rfl rfl,
   c6_prevent_aborts.2.2.2.2.2.1 ttEnvPrevent tooltipHiddenSt rfl,
   c6_prevent_aborts.2.2.2.2.2.2.1 collapseEnvPrevent 1 collapseDocPair rfl rfl rfl rfl,
   c6_prevent_aborts.2.2.2.2.2.2.2.1 collapseEnvPrevent 0 collapseDocPair rfl rfl rfl,
   c6_prevent_aborts.2.2.2.2.2.2.2.2.1 tabEnvPrevent 1 false (some 1) tabDocPair
     rfl rfl rfl rfl rfl,
   c6_prevent_aborts.2.2.2.2.2.2.2.2.2.1 tabEnvPreventHide 1 0 false (some 1)
     tabDocPair rfl rfl rfl rfl rfl rfl (by decide) rfl,
   c6_prevent_aborts.2.2.2.2.2.2.2.2.2.2.1 carEnvPrevent CDir.next none
     carouselFirstNoWrap (by decide) rfl,
   c6_prevent_aborts.2.2.2.2.2.2.2.2.2.2.2.1 alertEnvPrevent alertLive rfl,
   c6_prevent_aborts.2.2.2.2.2.2.2.2.2.2.2.2 affixEnvPrevent affixPinnedBottom rfl
     (by decide) rfl⟩

/-- Counterexample for C6 as stated: for the `affix` pre-event the claim
fails — on a bottom-pinned element (`unpin` set) whose next state is
`false`, `_checkPosition` clears the inline `top` style before
dispatching the cancelable `affix.bs.affix` event, so even though the
handler prevents it, the element's inline style is no longer exactly as
it was before the call. -/
theorem c6_counterexample :
    affixEnvPrevent.preventDefault "affix.bs.affix" = true ∧
    affixPinnedBottom.styleTop = some 500 ∧
    (affixCheckPosition affixEnvPrevent affixPinnedBottom).2 = ["affix.bs.affix"] ∧
    (affixCheckPosition affixEnvPrevent affixPinnedBottom).1.styleTop = none := by
  refine ⟨rfl, rfl, by decide, by decide⟩

/-- Helper: on a list sorted ascending (as `refresh()` leaves `_offsets`),
`getD` is monotone over in-range indices. -/
theorem listGetD_mono (l : List Int) (h : l.Pairwise (· ≤ ·)) :
    ∀ a b : Nat, a ≤ b → b < l.length → l.getD a 0 ≤ l.getD b 0 := by
  intro a b hab hb
  rcases Nat.eq_or_lt_of_le hab with rfl | hlt
  · exact le_refl _
  · have ha : a < l.length := Nat.lt_trans hlt hb
    rw [List.getD_eq_getElem?_getD, List.getD_eq_getElem?_getD,
        List.getElem?_eq_getElem ha, List.getElem?_eq_getElem hb]
    exact List.pairwise_iff_getElem.mp h a b ha hb hlt

/-- Helper: the reverse scan skips every index strictly above `i` when the
offset after `i` already exceeds the position, so starting it at any
`k` between `i + 1` and the length is the same as starting at `i + 1`. -/
theorem spyScan_skip_high (pos : Int) (offsets : List Int) (targets : List String)
    (i : Nat)
    (hnext : i + 1 < offsets.length → pos < offsets.getD (i + 1) 0)
    (hmono : ∀ a b : Nat, a ≤ b → b < offsets.length → offsets.getD a 0 ≤ offsets.getD b 0) :
    ∀ k, i + 1 ≤ k → k ≤ offsets.length → ∀ active,
      spyScan pos offsets targets k active = spyScan pos offsets targets (i + 1) active := by
  intro k
  induction k with
  | zero => intro h1 _ active; omega
  | succ j ih =>
    intro h1 h2 active
    rcases Nat.eq_or_lt_of_le h1 with heq | hlt
    · rw [heq]
    · have hj : j < offsets.length := by omega
      have hi1 : i + 1 < offsets.length := by omega
      have hpos : pos < offsets.getD j 0 :=
        lt_of_lt_of_le (hnext hi1) (hmono (i + 1) j (by omega) hj)
      simp only [spyScan]
      rw [if_neg]
      · exact ih (by omega) (by omega) active
      · intro hcond
        exact absurd hcond.2.1 (not_le.mpr hpos)

/-- Helper: below an index `i` whose offset is already at or under the
position, no index can activate (its successor offset is still at or
under the position), so the scan returns its accumulator unchanged. -/
theorem spyScan_skip_low (pos : Int) (offsets : List Int) (targets : List String)
    (i : Nat) (hi : i < offsets.length) (hlow : offsets.getD i 0 ≤ pos)
    (hmono : ∀ a b : Nat, a ≤ b → b < offsets.length → offsets.getD a 0 ≤ offsets.getD b 0) :
    ∀ k, k ≤ i → ∀ active, spyScan pos offsets targets k active = (active, []) := by
  intro k
  induction k with
  | zero => intro _ active; rfl
  | succ j ih =>
    intro hk active
    have hlen : ¬ offsets.length ≤ j + 1 := by omega
    have h2 : ¬ pos < offsets.getD (j + 1) 0 :=
      not_lt.mpr (le_trans (hmono (j + 1) i hk hi) hlow)
    simp only [spyScan]
    rw [if_neg]
    · exact ih (by omega) active
    · rintro ⟨-, -, hc3 | hc3⟩
      · exact hlen hc3
      · exact h2 hc3

/-- Helper: under sortedness, the full reverse scan ends with exactly the
bracketing index `i` active: `offsets[i] ≤ pos` and, unless `i` is last,
`pos < offsets[i+1]`. -/
theorem spyScan_activates (pos : Int) (offsets : List Int) (targets : List String)
    (active : Option String) (i : Nat) (hi : i < offsets.length)
    (hlow : offsets.getD i 0 ≤ pos)
    (hnext : i + 1 < offsets.length → pos < offsets.getD (i + 1) 0)
    (hmono : ∀ a b : Nat, a ≤ b → b < offsets.length → offsets.getD a 0 ≤ offsets.getD b 0) :
    (spyScan pos offsets targets offsets.length active).1 = some (targets.getD i "") := by
  rw [spyScan_skip_high pos offsets targets i hnext hmono offsets.length (by omega)
      (le_refl _) active]
  have hthird : offsets.length ≤ i + 1 ∨ pos < offsets.getD (i + 1) 0 := by
    by_cases hc : i + 1 < offsets.length
    · exact Or.inr (hnext hc)
    · exact Or.inl (by omega)
  by_cases hact : active = some (targets.getD i "")
  · simp only [spyScan]
    rw [if_neg, spyScan_skip_low pos offsets targets i hi hlow hmono i (le_refl i) active]
    · simpa using hact
    · rintro ⟨hc1, -, -⟩
      exact hc1 hact
  · simp only [spyScan]
    rw [if_pos ⟨hact, hlow, hthird⟩,
        spyScan_skip_low pos offsets targets i hi hlow hmono i (le_refl i)
          (some (targets.getD i ""))]

/-- C7.  Scrollspy activation over the ascending-offset target list, with
position = scroll position + configured offset: (a) at or past the
maximum scrollable extent the last target ends up active; (b) before the
first target's positive offset an existing active state is cleared;
(c) otherwise the target left active is the one whose offset is at most
the position while the following target's offset (when it exists) exceeds
it — in particular, with offsets `[0, 300, 700]` and configured offset
`10`, scroll position `305` activates the second target and `705` the
third (see the witness). -/
theorem c7_scrollspy_activation (env : SpyEnv) (s : SpyState)
    (hsorted : s.offsets.Pairwise (· ≤ ·)) :
    (s.offsets.length ≠ 0 →
      env.offsetOpt + env.scrollHeight - env.offsetHeight ≤ env.scrollTop + env.offsetOpt →
      (spyProcess env s).1.activeTarget =
        some (s.targets.getD (s.targets.length - 1) "")) ∧
    (env.scrollTop + env.offsetOpt < env.offsetOpt + env.scrollHeight - env.offsetHeight →
      s.offsets.length ≠ 0 → s.activeTarget ≠ none →
      env.scrollTop + env.offsetOpt < s.offsets.getD 0 0 → 0 < s.offsets.getD 0 0 →
      (spyProcess env s).1.activeTarget = none) ∧
    (∀ i : Nat, i < s.offsets.length →
      env.scrollTop + env.offsetOpt < env.offsetOpt + env.scrollHeight - env.offsetHeight →
      s.offsets.getD i 0 ≤ env.scrollTop + env.offsetOpt →
      (i + 1 < s.offsets.length →
        env.scrollTop + env.offsetOpt < s.offsets.getD (i + 1) 0) →
      (spyProcess env s).1.activeTarget = some (s.targets.getD i "")) := by
  have hmono := listGetD_mono s.offsets hsorted
  refine ⟨?_, ?_, ?_⟩
  · intro hlen hmax
    unfold spyProcess
    rw [if_neg hlen, if_pos hmax]
    by_cases hact : s.activeTarget ≠ some (s.targets.getD (s.targets.length - 1) "")
    · rw [if_pos hact]
    · rw [if_neg hact]
      simpa using not_ne_iff.mp hact
  · intro hmax hlen hact hfirst hposfirst
    unfold spyProcess
    rw [if_neg hlen, if_neg (not_le.mpr hmax), if_pos ⟨hact, hfirst, hposfirst⟩]
  · intro i hi hmax hlow hnext
    unfold spyProcess
    rw [if_neg (by omega : ¬ s.offsets.length = 0), if_neg (not_le.mpr hmax), if_neg]
    · exact spyScan_activates (env.scrollTop + env.offsetOpt) s.offsets s.targets
        s.activeTarget i hi hlow hnext hmono
    · rintro ⟨-, habove, -⟩
      have : s.offsets.getD 0 0 ≤ s.offsets.getD i 0 := hmono 0 i (Nat.zero_le i) hi
      omega

/-- Witness for C7 at the spec scenario: offsets `[0, 300, 700]`,
configured offset `10`; scroll position `305` activates `#two` (index 1)
and scroll position `705` activates `#three` (index 2). -/
theorem c7_witness :
    spyScenario.offsets = [0, 300, 700] ∧ spyEnv305.offsetOpt = 10 ∧
    spyEnv305.scrollTop = 305 ∧ spyEnv705.scrollTop = 705 ∧
    (spyProcess spyEnv305 spyScenario).1.activeTarget = some "#two" ∧
    (spyProcess spyEnv705 spyScenario).1.activeTarget = some "#three" :=
  ⟨rfl, rfl, rfl, rfl,
   (c7_scrollspy_activation spyEnv305 spyScenario (by decide)).2.2 1 (by decide)
     (by decide) (by decide) (fun _ => by decide),
   (c7_scrollspy_activation spyEnv705 spyScenario (by decide)).2.2 2 (by decide)
     (by decide) (by decide) (fun h => absurd h (by decide))⟩
